import Mathlib

set_option maxRecDepth 100000

/-!
Verification of the rules-based recommendation engine in `src/app.py` of the
measurement-wizard repository.  The python file contains two concatenated
revisions of the same app: a later revision (lines 1-849) and an earlier
revision (lines 850-1643).  Definitions without a suffix model the later
functions of the later revision; definitions with the suffix `_early` model
the copies from the earlier revision.  All answer fields are strings, exactly as in the source,
and every comparison mirrors the corresponding python comparison.
-/

/-- Answer record: the dictionary of questionnaire answers passed to
`compute_feasibility_score` and `build_recommendation` (the `final_answers`
dict built at submit time, plus the `control` key used by the earlier
revision). All values are strings, as in the source. -/
structure AnswerRecord where
  market : String
  objective : String
  ids : String
  omnichannel : String
  budget_level : String
  impressions_level : String
  duration : String
  offline_data : String
  control : String
  expectation : String
  other_media : String
  creative : String
  niche_audience : String
  bls_timing : String

/-- Later-revision feasibility scorer, `compute_feasibility_score` at
src/app.py lines 90-167: score starts at 3, one point is subtracted per
matched risk predicate, and the result is floored at 0 via `max(score, 0)`. -/
def compute_feasibility_score (answers : AnswerRecord) : Int :=
  let score : Int := 3
  let score := if answers.budget_level = "Low" then score - 1 else score
  let score := if answers.impressions_level = "Low" then score - 1 else score
  let score := if answers.duration ∈ ["< 1 week", "1–2 weeks"] then score - 1 else score
  let score := if answers.objective = "Brand awareness / consideration" ∧ answers.ids = "No" then score - 1 else score
  let score := if answers.objective ∈ ["Footfall / store visits", "Sales / conversions", "App installs / app usage"] ∧ answers.offline_data = "No" then score - 1 else score
  let score := if answers.expectation = "Formal, statistically robust lift study" ∧ (answers.budget_level = "Low" ∨ answers.impressions_level = "Low") then score - 1 else score
  let score := if answers.other_media = "Yes" then score - 1 else score
  let score := if answers.creative = "Weak / poor fit / static banners only" then score - 1 else score
  let score := if answers.objective = "Brand awareness / consideration" ∧ answers.niche_audience = "Yes" then score - 1 else score
  let score := if answers.objective = "Brand awareness / consideration" ∧ answers.bls_timing = "After/close to the end of campaign" then score - 1 else score
  let score := if answers.omnichannel = "Yes" ∧ answers.objective = "Brand awareness / consideration" then score - 1 else score
  max score 0

/-- Earlier-revision feasibility scorer, the second `compute_feasibility_score`
at src/app.py lines 982-1016: no floor is applied, the offline-data predicate
covers only footfall and sales, and there are no bls-timing or omnichannel
predicates. -/
def compute_feasibility_score_early (answers : AnswerRecord) : Int :=
  let score : Int := 3
  let score := if answers.budget_level = "Low" then score - 1 else score
  let score := if answers.impressions_level = "Low" then score - 1 else score
  let score := if answers.duration ∈ ["< 1 week", "1–2 weeks"] then score - 1 else score
  let score := if answers.objective = "Brand awareness / consideration" ∧ answers.ids = "No" then score - 1 else score
  let score := if answers.objective ∈ ["Footfall / store visits", "Sales / conversions"] ∧ answers.offline_data = "No" then score - 1 else score
  let score := if answers.expectation = "Formal, statistically robust lift study" ∧ (answers.budget_level = "Low" ∨ answers.impressions_level = "Low") then score - 1 else score
  let score := if answers.other_media = "Yes" then score - 1 else score
  let score := if answers.creative = "Weak / poor fit / static banners only" then score - 1 else score
  let score := if answers.objective = "Brand awareness / consideration" ∧ answers.niche_audience = "Yes" then score - 1 else score
  score

/-- Later-revision `map_score_to_status` (src/app.py lines 170-182). -/
def map_score_to_status (score : Int) : String × String :=
  if score ≥ 3 then ("Strong measurement feasible", "success")
  else if score = 2 then ("Feasible but with clear caveats", "warning")
  else if score = 1 then ("Borderline – treat as directional only", "warning")
  else ("Not recommended as a formal study – directional at best", "error")

/-- Earlier-revision `map_score_to_status` (src/app.py lines 1019-1026). -/
def map_score_to_status_early (score : Int) : String × String :=
  if score ≥ 3 then ("Strong measurement feasible", "success")
  else if score = 2 then ("Feasible but with caveats", "warning")
  else if score = 1 then ("Borderline – treat as directional only", "warning")
  else ("Not recommended as a formal study – directional only", "error")

/-- Indicator of a decidable proposition as an integer (0 or 1); used to state
the scorers in start-minus-deductions form. -/
def indicator (p : Prop) [Decidable p] : Int := if p then 1 else 0

/-- Total number of points the later-revision scorer deducts from its ceiling
of 3: one per matched predicate of `compute_feasibility_score`. -/
def later_deductions (a : AnswerRecord) : Int :=
  indicator (a.budget_level = "Low") +
  indicator (a.impressions_level = "Low") +
  indicator (a.duration ∈ ["< 1 week", "1–2 weeks"]) +
  indicator (a.objective = "Brand awareness / consideration" ∧ a.ids = "No") +
  indicator (a.objective ∈ ["Footfall / store visits", "Sales / conversions", "App installs / app usage"] ∧ a.offline_data = "No") +
  indicator (a.expectation = "Formal, statistically robust lift study" ∧ (a.budget_level = "Low" ∨ a.impressions_level = "Low")) +
  indicator (a.other_media = "Yes") +
  indicator (a.creative = "Weak / poor fit / static banners only") +
  indicator (a.objective = "Brand awareness / consideration" ∧ a.niche_audience = "Yes") +
  indicator (a.objective = "Brand awareness / consideration" ∧ a.bls_timing = "After/close to the end of campaign") +
  indicator (a.omnichannel = "Yes" ∧ a.objective = "Brand awareness / consideration")

/-- Total number of points the earlier-revision scorer deducts from 3. -/
def early_deductions (a : AnswerRecord) : Int :=
  indicator (a.budget_level = "Low") +
  indicator (a.impressions_level = "Low") +
  indicator (a.duration ∈ ["< 1 week", "1–2 weeks"]) +
  indicator (a.objective = "Brand awareness / consideration" ∧ a.ids = "No") +
  indicator (a.objective ∈ ["Footfall / store visits", "Sales / conversions"] ∧ a.offline_data = "No") +
  indicator (a.expectation = "Formal, statistically robust lift study" ∧ (a.budget_level = "Low" ∨ a.impressions_level = "Low")) +
  indicator (a.other_media = "Yes") +
  indicator (a.creative = "Weak / poor fit / static banners only") +
  indicator (a.objective = "Brand awareness / consideration" ∧ a.niche_audience = "Yes")

lemma ite_sub_one (c : Prop) [Decidable c] (s : Int) :
    (if c then s - 1 else s) = s - (if c then 1 else 0) := by
  by_cases h : c
  · simp [h]
  · simp [h]

lemma later_score_eq (a : AnswerRecord) :
    compute_feasibility_score a = max (3 - later_deductions a) 0 := by
  simp only [compute_feasibility_score, ite_sub_one, later_deductions, indicator]
  congr 1
  ring

lemma early_score_eq (a : AnswerRecord) :
    compute_feasibility_score_early a = 3 - early_deductions a := by
  simp only [compute_feasibility_score_early, ite_sub_one, early_deductions, indicator]
  ring

lemma ite_one_zero_mono {p q : Prop} [Decidable p] [Decidable q] (h : p → q) :
    (if p then (1 : Int) else 0) ≤ (if q then (1 : Int) else 0) := by
  by_cases hp : p
  · simp [hp, h hp]
  · by_cases hq : q <;> simp [hp, hq]

lemma later_score_mono (a b : AnswerRecord)
    (h1 : a.budget_level = "Low" → b.budget_level = "Low")
    (h2 : a.impressions_level = "Low" → b.impressions_level = "Low")
    (h3 : a.duration ∈ ["< 1 week", "1–2 weeks"] → b.duration ∈ ["< 1 week", "1–2 weeks"])
    (h4 : a.objective = "Brand awareness / consideration" ∧ a.ids = "No" →
          b.objective = "Brand awareness / consideration" ∧ b.ids = "No")
    (h5 : a.objective ∈ ["Footfall / store visits", "Sales / conversions", "App installs / app usage"] ∧ a.offline_data = "No" →
          b.objective ∈ ["Footfall / store visits", "Sales / conversions", "App installs / app usage"] ∧ b.offline_data = "No")
    (h6 : a.expectation = "Formal, statistically robust lift study" ∧ (a.budget_level = "Low" ∨ a.impressions_level = "Low") →
          b.expectation = "Formal, statistically robust lift study" ∧ (b.budget_level = "Low" ∨ b.impressions_level = "Low"))
    (h7 : a.other_media = "Yes" → b.other_media = "Yes")
    (h8 : a.creative = "Weak / poor fit / static banners only" → b.creative = "Weak / poor fit / static banners only")
    (h9 : a.objective = "Brand awareness / consideration" ∧ a.niche_audience = "Yes" →
          b.objective = "Brand awareness / consideration" ∧ b.niche_audience = "Yes")
    (h10 : a.objective = "Brand awareness / consideration" ∧ a.bls_timing = "After/close to the end of campaign" →
           b.objective = "Brand awareness / consideration" ∧ b.bls_timing = "After/close to the end of campaign")
    (h11 : a.omnichannel = "Yes" ∧ a.objective = "Brand awareness / consideration" →
           b.omnichannel = "Yes" ∧ b.objective = "Brand awareness / consideration") :
    compute_feasibility_score b ≤ compute_feasibility_score a := by
  rw [later_score_eq a, later_score_eq b]
  refine max_le_max ?_ le_rfl
  have e1 := ite_one_zero_mono h1
  have e2 := ite_one_zero_mono h2
  have e3 := ite_one_zero_mono h3
  have e4 := ite_one_zero_mono h4
  have e5 := ite_one_zero_mono h5
  have e6 := ite_one_zero_mono h6
  have e7 := ite_one_zero_mono h7
  have e8 := ite_one_zero_mono h8
  have e9 := ite_one_zero_mono h9
  have e10 := ite_one_zero_mono h10
  have e11 := ite_one_zero_mono h11
  simp only [later_deductions, indicator]
  linarith

lemma early_score_mono (a b : AnswerRecord)
    (h1 : a.budget_level = "Low" → b.budget_level = "Low")
    (h2 : a.impressions_level = "Low" → b.impressions_level = "Low")
    (h3 : a.duration ∈ ["< 1 week", "1–2 weeks"] → b.duration ∈ ["< 1 week", "1–2 weeks"])
    (h4 : a.objective = "Brand awareness / consideration" ∧ a.ids = "No" →
          b.objective = "Brand awareness / consideration" ∧ b.ids = "No")
    (h5 : a.objective ∈ ["Footfall / store visits", "Sales / conversions"] ∧ a.offline_data = "No" →
          b.objective ∈ ["Footfall / store visits", "Sales / conversions"] ∧ b.offline_data = "No")
    (h6 : a.expectation = "Formal, statistically robust lift study" ∧ (a.budget_level = "Low" ∨ a.impressions_level = "Low") →
          b.expectation = "Formal, statistically robust lift study" ∧ (b.budget_level = "Low" ∨ b.impressions_level = "Low"))
    (h7 : a.other_media = "Yes" → b.other_media = "Yes")
    (h8 : a.creative = "Weak / poor fit / static banners only" → b.creative = "Weak / poor fit / static banners only")
    (h9 : a.objective = "Brand awareness / consideration" ∧ a.niche_audience = "Yes" →
          b.objective = "Brand awareness / consideration" ∧ b.niche_audience = "Yes") :
    compute_feasibility_score_early b ≤ compute_feasibility_score_early a := by
  rw [early_score_eq a, early_score_eq b]
  have e1 := ite_one_zero_mono h1
  have e2 := ite_one_zero_mono h2
  have e3 := ite_one_zero_mono h3
  have e4 := ite_one_zero_mono h4
  have e5 := ite_one_zero_mono h5
  have e6 := ite_one_zero_mono h6
  have e7 := ite_one_zero_mono h7
  have e8 := ite_one_zero_mono h8
  have e9 := ite_one_zero_mono h9
  simp only [early_deductions, indicator]
  linarith

/-- The risk-triggering answer fields of the scorers: each can be flipped from
a safe value to a risky value that (alone, or jointly with other already-risky
fields) makes a scoring predicate fire. -/
inductive RiskField where
  | budget
  | impressions
  | duration
  | ids
  | offline
  | expectation
  | otherMedia
  | creative
  | niche
  | blsTiming
  | omnichannel

/-- Overwrite a single risk-triggering field of an answer record, holding all
other fields constant. -/
def set_risk_field : RiskField → String → AnswerRecord → AnswerRecord
  | .budget, v, a => { a with budget_level := v }
  | .impressions, v, a => { a with impressions_level := v }
  | .duration, v, a => { a with duration := v }
  | .ids, v, a => { a with ids := v }
  | .offline, v, a => { a with offline_data := v }
  | .expectation, v, a => { a with expectation := v }
  | .otherMedia, v, a => { a with other_media := v }
  | .creative, v, a => { a with creative := v }
  | .niche, v, a => { a with niche_audience := v }
  | .blsTiming, v, a => { a with bls_timing := v }
  | .omnichannel, v, a => { a with omnichannel := v }

/-- The risky values of each risk-triggering field: the values that satisfy the
conjunct for that field in the corresponding scoring predicate of
`compute_feasibility_score` (src/app.py lines 120-165). -/
def risky_values : RiskField → List String
  | .budget => ["Low"]
  | .impressions => ["Low"]
  | .duration => ["< 1 week", "1–2 weeks"]
  | .ids => ["No"]
  | .offline => ["No"]
  | .expectation => ["Formal, statistically robust lift study"]
  | .otherMedia => ["Yes"]
  | .creative => ["Weak / poor fit / static banners only"]
  | .niche => ["Yes"]
  | .blsTiming => ["After/close to the end of campaign"]
  | .omnichannel => ["Yes"]

/-- C3: setting any single risk-triggering field to a risky value, holding all
other fields constant, never increases the feasibility score, in the later
revision (across its floor-at-zero clamp and the conjunctive formal-expectation
predicate) and in the earlier revision alike. -/
theorem C3_risky_flip_never_increases_score :
    ∀ (a : AnswerRecord) (f : RiskField) (v : String), v ∈ risky_values f →
      compute_feasibility_score (set_risk_field f v a) ≤ compute_feasibility_score a ∧
      compute_feasibility_score_early (set_risk_field f v a) ≤ compute_feasibility_score_early a := by
  intro a f v hv
  cases f with
  | budget =>
      simp only [risky_values, List.mem_singleton] at hv
      subst hv
      constructor
      · exact later_score_mono a _ (fun _ => rfl) (fun h => h) (fun h => h) (fun h => h)
          (fun h => h) (fun h => ⟨h.1, Or.inl rfl⟩) (fun h => h) (fun h => h) (fun h => h)
          (fun h => h) (fun h => h)
      · exact early_score_mono a _ (fun _ => rfl) (fun h => h) (fun h => h) (fun h => h)
          (fun h => h) (fun h => ⟨h.1, Or.inl rfl⟩) (fun h => h) (fun h => h) (fun h => h)
  | impressions =>
      simp only [risky_values, List.mem_singleton] at hv
      subst hv
      constructor
      · exact later_score_mono a _ (fun h => h) (fun _ => rfl) (fun h => h) (fun h => h)
          (fun h => h) (fun h => ⟨h.1, Or.inr rfl⟩) (fun h => h) (fun h => h) (fun h => h)
          (fun h => h) (fun h => h)
      · exact early_score_mono a _ (fun h => h) (fun _ => rfl) (fun h => h) (fun h => h)
          (fun h => h) (fun h => ⟨h.1, Or.inr rfl⟩) (fun h => h) (fun h => h) (fun h => h)
  | duration =>
      constructor
      · exact later_score_mono a _ (fun h => h) (fun h => h) (fun _ => hv) (fun h => h)
          (fun h => h) (fun h => h) (fun h => h) (fun h => h) (fun h => h)
          (fun h => h) (fun h => h)
      · exact early_score_mono a _ (fun h => h) (fun h => h) (fun _ => hv) (fun h => h)
          (fun h => h) (fun h => h) (fun h => h) (fun h => h) (fun h => h)
  | ids =>
      simp only [risky_values, List.mem_singleton] at hv
      subst hv
      constructor
      · exact later_score_mono a _ (fun h => h) (fun h => h) (fun h => h) (fun h => ⟨h.1, rfl⟩)
          (fun h => h) (fun h => h) (fun h => h) (fun h => h) (fun h => h)
          (fun h => h) (fun h => h)
      · exact early_score_mono a _ (fun h => h) (fun h => h) (fun h => h) (fun h => ⟨h.1, rfl⟩)
          (fun h => h) (fun h => h) (fun h => h) (fun h => h) (fun h => h)
  | offline =>
      simp only [risky_values, List.mem_singleton] at hv
      subst hv
      constructor
      · exact later_score_mono a _ (fun h => h) (fun h => h) (fun h => h) (fun h => h)
          (fun h => ⟨h.1, rfl⟩) (fun h => h) (fun h => h) (fun h => h) (fun h => h)
          (fun h => h) (fun h => h)
      · exact early_score_mono a _ (fun h => h) (fun h => h) (fun h => h) (fun h => h)
          (fun h => ⟨h.1, rfl⟩) (fun h => h) (fun h => h) (fun h => h) (fun h => h)
  | expectation =>
      simp only [risky_values, List.mem_singleton] at hv
      subst hv
      constructor
      · exact later_score_mono a _ (fun h => h) (fun h => h) (fun h => h) (fun h => h)
          (fun h => h) (fun h => ⟨rfl, h.2⟩) (fun h => h) (fun h => h) (fun h => h)
          (fun h => h) (fun h => h)
      · exact early_score_mono a _ (fun h => h) (fun h => h) (fun h => h) (fun h => h)
          (fun h => h) (fun h => ⟨rfl, h.2⟩) (fun h => h) (fun h => h) (fun h => h)
  | otherMedia =>
      simp only [risky_values, List.mem_singleton] at hv
      subst hv
      constructor
      · exact later_score_mono a _ (fun h => h) (fun h => h) (fun h => h) (fun h => h)
          (fun h => h) (fun h => h) (fun _ => rfl) (fun h => h) (fun h => h)
          (fun h => h) (fun h => h)
      · exact early_score_mono a _ (fun h => h) (fun h => h) (fun h => h) (fun h => h)
          (fun h => h) (fun h => h) (fun _ => rfl) (fun h => h) (fun h => h)
  | creative =>
      simp only [risky_values, List.mem_singleton] at hv
      subst hv
      constructor
      · exact later_score_mono a _ (fun h => h) (fun h => h) (fun h => h) (fun h => h)
          (fun h => h) (fun h => h) (fun h => h) (fun _ => rfl) (fun h => h)
          (fun h => h) (fun h => h)
      · exact early_score_mono a _ (fun h => h) (fun h => h) (fun h => h) (fun h => h)
          (fun h => h) (fun h => h) (fun h => h) (fun _ => rfl) (fun h => h)
  | niche =>
      simp only [risky_values, List.mem_singleton] at hv
      subst hv
      constructor
      · exact later_score_mono a _ (fun h => h) (fun h => h) (fun h => h) (fun h => h)
          (fun h => h) (fun h => h) (fun h => h) (fun h => h) (fun h => ⟨h.1, rfl⟩)
          (fun h => h) (fun h => h)
      · exact early_score_mono a _ (fun h => h) (fun h => h) (fun h => h) (fun h => h)
          (fun h => h) (fun h => h) (fun h => h) (fun h => h) (fun h => ⟨h.1, rfl⟩)
  | blsTiming =>
      simp only [risky_values, List.mem_singleton] at hv
      subst hv
      constructor
      · exact later_score_mono a _ (fun h => h) (fun h => h) (fun h => h) (fun h => h)
          (fun h => h) (fun h => h) (fun h => h) (fun h => h) (fun h => h)
          (fun h => ⟨h.1, rfl⟩) (fun h => h)
      · exact early_score_mono a _ (fun h => h) (fun h => h) (fun h => h) (fun h => h)
          (fun h => h) (fun h => h) (fun h => h) (fun h => h) (fun h => h)
  | omnichannel =>
      simp only [risky_values, List.mem_singleton] at hv
      subst hv
      constructor
      · exact later_score_mono a _ (fun h => h) (fun h => h) (fun h => h) (fun h => h)
          (fun h => h) (fun h => h) (fun h => h) (fun h => h) (fun h => h)
          (fun h => h) (fun h => ⟨rfl, h.2⟩)
      · exact early_score_mono a _ (fun h => h) (fun h => h) (fun h => h) (fun h => h)
          (fun h => h) (fun h => h) (fun h => h) (fun h => h) (fun h => h)

/-- Example record with every field at a safe, in-enumeration value. -/
def safe_answers : AnswerRecord where
  market := "UK"
  objective := "Brand awareness / consideration"
  ids := "Yes"
  omnichannel := "No"
  budget_level := "Medium"
  impressions_level := "Medium"
  duration := "2–4 weeks"
  offline_data := "Yes"
  control := "Yes"
  expectation := "Directional understanding / story is fine"
  other_media := "No"
  creative := "Strong, tested creative aligned to the message"
  niche_audience := "No"
  bls_timing := "During main body of campaign"

/-- C3 witness: flipping the budget field of the safe record to "Low" does not
increase the score of either revision. -/
theorem C3_risky_flip_never_increases_score_witness :
    "Low" ∈ risky_values RiskField.budget ∧
      (compute_feasibility_score (set_risk_field RiskField.budget "Low" safe_answers) ≤
        compute_feasibility_score safe_answers ∧
      compute_feasibility_score_early (set_risk_field RiskField.budget "Low" safe_answers) ≤
        compute_feasibility_score_early safe_answers) :=
  ⟨by decide, C3_risky_flip_never_increases_score safe_answers RiskField.budget "Low" (by decide)⟩

/-- C1: in both revisions, `map_score_to_status` partitions the integers into
exactly four bands: the ok/success band with the Strong label exactly for
scores at least 3, the warn/warning band with the feasible-with-caveats label
exactly for score 2, the warn/warning band with the borderline-directional
label exactly for score 1, and the fail/error band with the
not-recommended-as-formal-study label exactly for scores at most 0, including
negative and out-of-range integers. -/
theorem C1_status_bands :
    ∀ score : Int,
      (map_score_to_status score = ("Strong measurement feasible", "success") ↔ 3 ≤ score) ∧
      (map_score_to_status score = ("Feasible but with clear caveats", "warning") ↔ score = 2) ∧
      (map_score_to_status score = ("Borderline – treat as directional only", "warning") ↔ score = 1) ∧
      (map_score_to_status score =
        ("Not recommended as a formal study – directional at best", "error") ↔ score ≤ 0) ∧
      (map_score_to_status_early score = ("Strong measurement feasible", "success") ↔ 3 ≤ score) ∧
      (map_score_to_status_early score = ("Feasible but with caveats", "warning") ↔ score = 2) ∧
      (map_score_to_status_early score = ("Borderline – treat as directional only", "warning") ↔ score = 1) ∧
      (map_score_to_status_early score =
        ("Not recommended as a formal study – directional only", "error") ↔ score ≤ 0) := by
  intro s
  unfold map_score_to_status map_score_to_status_early
  refine ⟨?_, ?_, ?_, ?_, ?_, ?_, ?_, ?_⟩ <;> split_ifs <;> simp_all <;> omega

/-- An answer record is valid when every field holds a value from the closed
enumeration offered by the questionnaire for that field (radio/selectbox
options and the values the wizard stores for them). -/
def valid_answers (a : AnswerRecord) : Prop :=
  a.market ∈ ["US", "UK", "EU", "AU", "NZ", "Asia", "Benelux", "Italy", "India", "Other"] ∧
  a.objective ∈ ["Brand awareness / consideration", "Footfall / store visits",
    "Sales / conversions", "App installs / app usage", "Other / I\x27m not sure"] ∧
  a.ids ∈ ["Yes", "No", "Not sure"] ∧
  a.omnichannel ∈ ["Yes", "No", "Not sure"] ∧
  a.budget_level ∈ ["Low", "Medium", "High"] ∧
  a.impressions_level ∈ ["Low", "Medium", "High"] ∧
  a.duration ∈ ["< 1 week", "1–2 weeks", "2–4 weeks", "4+ weeks"] ∧
  a.offline_data ∈ ["Yes", "No", "Not sure"] ∧
  a.control ∈ ["Yes", "No", "Not sure"] ∧
  a.expectation ∈ ["Formal, statistically robust lift study",
    "Directional understanding / story is fine", "Not sure yet"] ∧
  a.other_media ∈ ["Yes", "No", "Not sure"] ∧
  a.creative ∈ ["Strong, tested creative aligned to the message", "Average / not tested yet",
    "Weak / poor fit / static banners only"] ∧
  a.niche_audience ∈ ["Yes", "No"] ∧
  a.bls_timing ∈ ["During main body of campaign", "After/close to the end of campaign",
    "Not planning Brand Lift / not sure"]

instance (a : AnswerRecord) : Decidable (valid_answers a) := by
  unfold valid_answers
  infer_instance

/-- Valid record on which every risk predicate of the earlier scorer that can
fire does fire: its raw score is 3 - 8 = -5. -/
def worst_brand_answers : AnswerRecord where
  market := "UK"
  objective := "Brand awareness / consideration"
  ids := "No"
  omnichannel := "Yes"
  budget_level := "Low"
  impressions_level := "Low"
  duration := "< 1 week"
  offline_data := "No"
  control := "No"
  expectation := "Formal, statistically robust lift study"
  other_media := "Yes"
  creative := "Weak / poor fit / static banners only"
  niche_audience := "Yes"
  bls_timing := "After/close to the end of campaign"

/-- C2: the later-revision scorer is floored at 0 on every valid answer record
(indeed on every record), while the earlier-revision scorer, which applies no
floor, returns a negative score on some valid answer record. -/
theorem C2_score_floor :
    (∀ a : AnswerRecord, valid_answers a → 0 ≤ compute_feasibility_score a) ∧
    (∃ a : AnswerRecord, valid_answers a ∧ compute_feasibility_score_early a < 0) := by
  constructor
  · intro a _
    exact le_max_right _ _
  · exact ⟨worst_brand_answers, by decide, by decide⟩

/-- C2 witness: the floor theorem applied to the concrete all-risky valid
record, which the earlier scorer sends to -5 but the later scorer floors
at 0. -/
theorem C2_score_floor_witness :
    valid_answers worst_brand_answers ∧
      0 ≤ compute_feasibility_score worst_brand_answers ∧
      compute_feasibility_score worst_brand_answers = 0 ∧
      compute_feasibility_score_early worst_brand_answers = -5 :=
  ⟨by decide, C2_score_floor.1 worst_brand_answers (by decide), by decide, by decide⟩

/-- Recommendation result: the dict returned by `build_recommendation`. -/
structure Recommendation where
  primary : String
  details : List String
  risks : List String
  alternatives : List String
  methods : List String

/-- Phase 1 of the later-revision `build_recommendation` (src/app.py lines
213-332): the core recommendation keyed by objective, including the
objective-specific conditional risk/alternative appends made inside the brand
branch, in the append order of the source. -/
def build_core (a : AnswerRecord) : Recommendation :=
  if a.objective = "Brand awareness / consideration" then
    { primary :=
        if a.ids ≠ "Yes" ∨ a.omnichannel = "Yes" then
          "Run a Brand Lift via SHG / custom uplift (minimum 100k media spend)."
        else
          "Run an ID-based Brand Lift Study (minimum 30k media spend)."
      methods :=
        if a.ids ≠ "Yes" ∨ a.omnichannel = "Yes" then
          ["Brand Lift via SHG (minimum 100k).",
           "If SHG is not possible, consider an ODR survey (minimum 40k)."]
        else
          ["Brand Lift Study (ID-based, minimum 30k).",
           "If additional non-ID channels are important, consider SHG Brand Lift (minimum 100k).",
           "ODR survey (minimum 40k) can be used where panel-based brand work is preferred."]
      details :=
        if a.ids ≠ "Yes" ∨ a.omnichannel = "Yes" then
          ["Because IDs are missing on key channels or the campaign is omnichannel, SHG-style Brand Lift or an ODR survey is more suitable than pure ID-based BLS."]
        else
          ["Where IDs are present, use exposed vs control Brand Lift. If campaign mix shifts into non-ID channels, SHG can be layered in."]
      risks :=
        (if a.budget_level = "Low" then
          ["Running a BLS under 30k can result in too small a sample and invalid results. Example CPM of £8 on a £30k budget ≈ 240,000 impressions → 240,000 / frequency of 3 ≈ 80,000 unique reach → 1% CTR gives 800 clicks → 10% completion rate gives 80 completes, which is too small a sample."]
         else []) ++
        (if a.bls_timing = "After/close to the end of campaign" then
          ["Running BLS after or very close to the end of a campaign limits the chance of getting a representative sample and reduces subconscious recognition even 48 hours after exposure."]
         else []) ++
        (if a.niche_audience = "Yes" then
          ["B2B / niche audiences: likelihood of reaching them with BLS at scale is very low."]
         else []) ++
        ["Respondent experience: avoid too many answer options, overly long questions or character-heavy text. These reduce completion rates and data quality."]
      alternatives :=
        (if a.budget_level = "Low" then
          ["Increase spend to at least 30k for ID-based BLS, or shift to SHG/ODR with a higher budget."]
         else []) ++
        (if a.niche_audience = "Yes" then
          ["Consider broader proxy audiences, alternative research (qual, desk), or use Brand Lift only as a directional read."]
         else []) }
  else if a.objective = "Footfall / store visits" then
    if a.offline_data = "Yes" then
      { primary :=
          if a.ids = "Yes" then "Run an ID-based Footfall Uplift study (minimum 30k media spend)."
          else "Run an SHG-based Footfall Uplift study (minimum 100k media spend)."
        methods :=
          if a.ids = "Yes" then
            ["Footfall uplift (ID-based, minimum 30k).",
             "If IDs are limited, consider SHG-based footfall uplift (minimum 100k)."]
          else ["Footfall uplift via SHG (minimum 100k)."]
        details := ["Use location data (Blis or partners) to compare exposed vs control store visits."]
        risks := []
        alternatives := [] }
    else
      { primary := "Report on proximity and reach around stores; a formal footfall uplift study is not possible."
        methods := ["Report on reach, delivery and density of impressions around store postcodes."]
        details := ["Without store-visit or equivalent offline data, focus on distribution of impressions and reach in store catchments rather than formal uplift."]
        risks := []
        alternatives := ["Work with the client to enable store-visit or equivalent data for future uplift work."] }
  else if a.objective = "Sales / conversions" then
    if a.offline_data = "Yes" then
      { primary := "Run a Sales Uplift study using merchant/product-level data."
        methods := ["Mastercard uplift by merchant (minimum 120k).",
                    "Circana uplift by product (minimum 100k)."]
        details := ["Use exposed vs control matched at merchant or product level, following the minimum spends."]
        risks := []
        alternatives := [] }
    else
      { primary := "Optimise to digital performance KPIs (e.g. conversions, ROAS). A formal sales uplift read is not possible without sales or transaction data."
        methods := []
        details := ["Without sales data, we can still optimise but cannot run a proper sales uplift study."]
        risks := []
        alternatives := ["Enable Mastercard / Circana or client sales data integrations for future campaigns."] }
  else if a.objective = "App installs / app usage" then
    if a.offline_data = "Yes" then
      { primary := "Run an App Uplift study via eligible partners (minimum 120k media spend)."
        methods := ["O2 / VMO2-style App Uplift (minimum 120k)."]
        details := ["Use app analytics to compare exposed vs control app usage or installs, respecting partner minimums."]
        risks := []
        alternatives := [] }
    else
      { primary := "Use standard attribution and app analytics with directional uplift reads only."
        methods := ["App attribution plus directional checks by geo or audience."]
        details := ["Without a dedicated app uplift framework, attribute installs to media and treat uplift as directional."]
        risks := []
        alternatives := [] }
  else
    { primary := "Use a custom uplift study via SHG where budgets allow (minimum 100k)."
      methods := ["Custom uplift via SHG (minimum 100k)."]
      details := ["For bespoke outcomes, use SHG-based custom uplift where minimum budgets are met; otherwise, rely on campaign KPIs directionally."]
      risks := []
      alternatives := [] }

/-- Risks appended by the cross-cutting pass of the later revision (src/app.py
lines 334-412), in append order; the final market-feasibility note and the
control/holdout note are unconditional. -/
def cross_risks (a : AnswerRecord) : List String :=
  (if a.budget_level = "Low" then
    ["Budget / spend threshold: below roughly 30k, most structured analyses struggle to achieve stable sample sizes."]
   else []) ++
  (if a.budget_level = "Low" ∧ a.impressions_level = "Low" then
    ["This sits in the \x27Bermuda Triangle\x27 – low budget and low number of impressions. Results are likely to get lost in noise."]
   else []) ++
  (if a.impressions_level = "Low" then
    ["Number and density of impressions are limited. Distribution across postcodes may be patchy, reducing representativeness."]
   else []) ++
  (if a.duration ∈ ["< 1 week", "1–2 weeks"] then
    ["Duration is short (even allowing for bursts of activity). It may not allow enough time to build reach and frequency."]
   else []) ++
  (if a.budget_level = "Low" ∧ a.impressions_level ∈ ["Medium", "High"] then
    ["Budget vs reach tension: audience may be too broad relative to spend, which can thin out impressions and weaken effectiveness (e.g. broad sporty audience for a specialist brand)."]
   else []) ++
  (if a.niche_audience = "Yes" then
    ["Things that can limit effectiveness: niche or ultra high value audiences are harder to reach consistently and can struggle to hit the minimum sample requirements."]
   else []) ++
  (if a.other_media = "Yes" then
    ["Other media running in the same markets and period will make it harder to isolate this activity\x27s impact."]
   else []) ++
  (if a.creative = "Weak / poor fit / static banners only" then
    ["Creative quality: weak, static or poorly aligned creative can limit the chance of seeing any measurable lift, regardless of methodology."]
   else []) ++
  ["Market you are advertising in can affect feasibility (panel coverage, data availability, partner access). Check local constraints before committing to specific vendors."] ++
  ["Ensure there is a clear control or holdout group. Without a proper control, results become directional rather than definitive."]

/-- Alternatives appended by the cross-cutting pass of the later revision, in
append order. -/
def cross_alternatives (a : AnswerRecord) : List String :=
  (if a.budget_level = "Low" ∧ a.impressions_level = "Low" then
    ["Increase budget and impressions, tighten targeting, or avoid positioning this as a formal uplift study."]
   else []) ++
  (if a.other_media = "Yes" then
    ["Where possible, separate test vs control geographies or time periods to reduce contamination from other media."]
   else []) ++
  (if a.creative = "Weak / poor fit / static banners only" then
    ["Strengthen creative (messaging, formats, assets) and treat any current read as directional only."]
   else [])

/-- Details appended by the cross-cutting pass of the later revision (the
average-creative note, appended by the elif arm of the creative check). -/
def cross_details (a : AnswerRecord) : List String :=
  if a.creative = "Weak / poor fit / static banners only" then []
  else if a.creative = "Average / not tested yet" then
    ["Creative has not been fully tested – interpret results as a read on both media and creative effectiveness."]
  else []

/-- Later-revision `build_recommendation` (src/app.py lines 188-420): the
objective-keyed core followed by the cross-cutting annotation pass; the
mutable python appends become list concatenations in the same order. The
`expectation` field is read into a local variable by the source but never
used. -/
def build_recommendation (a : AnswerRecord) : Recommendation :=
  let core := build_core a
  { core with
    details := core.details ++ cross_details a
    risks := core.risks ++ cross_risks a
    alternatives := core.alternatives ++ cross_alternatives a }

/-- ASCII lower-casing of a character, as python str.lower acts on the ASCII
letters appearing in the labels of the wizard. -/
def charLower (c : Char) : Char :=
  if 'A' ≤ c ∧ c ≤ 'Z' then Char.ofNat (c.toNat + 32) else c

/-- ASCII lower-casing of a string (python `str.lower()` restricted to the
ASCII alphabet, which covers every letter in the labels of the wizard). -/
def strLower (s : String) : String :=
  String.mk (s.toList.map charLower)

/-- Test whether the first character list is an initial segment of the second. -/
def listStarts : List Char → List Char → Bool
  | [], _ => true
  | _ :: _, [] => false
  | a :: as, b :: bs => a == b && listStarts as bs

/-- Test whether the first character list occurs contiguously inside the second. -/
def listHasSub (pat : List Char) : List Char → Bool
  | [] => listStarts pat []
  | c :: rest => listStarts pat (c :: rest) || listHasSub pat rest

/-- Substring test: python `pat in s`, written `strHasSub s pat`. -/
def strHasSub (s pat : String) : Bool :=
  listHasSub pat.toList s.toList

/-- `get_impression_level` (identical in both revisions, src/app.py lines
72-84 and 911-917): lower-case the band label, then classify by substring
checks. -/
def get_impression_level (imp_label : String) : String :=
  let label := strLower imp_label
  if strHasSub label "<" || strHasSub label "0–" then "Low"
  else if strHasSub label "100k–" || strHasSub label "50k–" then "Medium"
  else "High"

/-- Earlier-revision `get_vendor_hint` (src/app.py lines 923-976): a static
market-by-objective-category advisory string, empty for unknown markets or
objectives. -/
def get_vendor_hint (market objective : String) : String :=
  if strHasSub objective "Brand awareness" then
    match market with
    | "US" => "Brand lift via established US panel/brand study partners."
    | "UK" => "Brand lift via UK panel/brand study partners."
    | "EU" => "Brand lift via EU panel providers."
    | "AU" => "Brand lift via AU/NZ panel providers."
    | "NZ" => "Brand lift via AU/NZ panel providers."
    | "Asia" => "Brand lift via regional panel partners where available."
    | "Benelux" => "Brand lift via EU/Benelux panel partners."
    | "Italy" => "Brand lift via EU/IT panel partners."
    | "India" => "Brand lift via India panel partners where active."
    | "Other" => "Brand lift via local/regional panel partners where available."
    | _ => ""
  else if strHasSub objective "Footfall" then
    match market with
    | "US" => "Footfall using Blis location graph and US POI/visit partners."
    | "UK" => "Footfall using Blis UK location graph and POI data."
    | "EU" => "Footfall using Blis EU location graph and retail POIs."
    | "AU" => "Footfall using AU/NZ location partners where available."
    | "NZ" => "Footfall using AU/NZ location partners where available."
    | "Asia" => "Footfall using regional location graph where coverage allows."
    | "Benelux" => "Footfall using EU/Benelux location graph and POIs."
    | "Italy" => "Footfall using EU/IT graph; check store coverage and compliance."
    | "India" => "Footfall using India location graph where active."
    | "Other" => "Footfall via local/regional location and POI partners."
    | _ => ""
  else if strHasSub objective "Sales / conversions" then
    match market with
    | "US" => "Sales uplift using available retail/e-comm/panel data sources."
    | "UK" => "Sales uplift using UK retail/panel/loyalty data where enabled."
    | "EU" => "Sales uplift using EU retail/panel data where enabled."
    | "AU" => "Sales uplift using AU retailer/panel data where available."
    | "NZ" => "Sales uplift using AU/NZ retail data where available."
    | "Asia" => "Sales uplift using local e-commerce/retail data where clients provide it."
    | "Benelux" => "Sales uplift using EU/Benelux retail or panel data where available."
    | "Italy" => "Sales uplift using EU/IT retail/panel data."
    | "India" => "Sales uplift using India retail/e-commerce data where enabled."
    | "Other" => "Sales uplift using local retail/panel data where available."
    | _ => ""
  else if strHasSub objective "App installs" then
    match market with
    | "US" => "App uplift via app analytics/MMP-style partners."
    | "UK" => "App uplift via UK app analytics/MMP setups."
    | "EU" => "App uplift via EU app analytics/MMP setups."
    | "AU" => "App uplift via AU/NZ app analytics setups."
    | "NZ" => "App uplift via AU/NZ app analytics setups."
    | "Asia" => "App uplift via regional app analytics setups."
    | "Benelux" => "App uplift via EU app analytics setups."
    | "Italy" => "App uplift via EU/IT app analytics setups."
    | "India" => "App uplift via India app analytics/MMP setups."
    | "Other" => "App uplift via local app analytics/MMP setups."
    | _ => ""
  else ""

/-- Phase 1 of the earlier-revision `build_recommendation` (src/app.py lines
1051-1168), including the control-group, budget, bls-timing and niche risk
appends made inside the brand branch, in the append order of the source. -/
def build_core_early (a : AnswerRecord) : Recommendation :=
  if a.objective = "Brand awareness / consideration" then
    { primary :=
        if a.ids ≠ "Yes" ∨ a.omnichannel = "Yes" then
          "Run an SHG-based Brand Lift / custom uplift study (min ~100k media spend)."
        else
          "Run an ID-based Brand Lift Study (min ~30k media spend)."
      methods :=
        if a.ids ≠ "Yes" ∨ a.omnichannel = "Yes" then
          ["BLS SHG (minimum ~100k media spend).",
           "If SHG is not possible, use ODR-style survey (minimum ~40k)."]
        else
          ["BLS ID (minimum ~30k media spend).",
           "Optionally, BLS SHG (minimum ~100k) for omnichannel coverage.",
           "ODR survey (minimum ~40k) as an alternative panel-based approach."]
      details :=
        if a.ids ≠ "Yes" ∨ a.omnichannel = "Yes" then
          ["Channels without IDs and omnichannel activity require SHG-type brand lift or an ODR survey rather than pure ID-based BLS."]
        else
          ["Use exposed vs control Brand Lift with IDs where available. If additional channels lack IDs, consider SHG."]
      risks :=
        (if a.control = "No" then
          ["No control group defined – weakens the ability to prove incremental lift."]
         else []) ++
        (if a.budget_level = "Low" then
          ["Running a BLS under ~30k spend can produce too small a sample. Example: £8 CPM on a £30k budget ≈ 240k impressions → 80k unique reach at freq 3 → 800 clicks at 1% CTR → 80 completes at 10% completion – too small."]
         else []) ++
        (if a.bls_timing = "After/close to the end of campaign" then
          ["Running BLS after/close to the end of a campaign makes it hard to get a representative sample; subconscious recognition even 48 hours after exposure is limited."]
         else []) ++
        (if a.niche_audience = "Yes" then
          ["B2B/niche audience: likelihood of reaching enough respondents with BLS is very low."]
         else []) ++
        ["Respondent experience: avoid too many answer options, overly long questions, or excessive survey length – these reduce completion and data quality."]
      alternatives :=
        (if a.control = "No" then
          ["Set up a holdout geo/audience, even if small, for future flights."]
         else []) ++
        (if a.budget_level = "Low" then
          ["Increase spend beyond ~30k or treat any Brand Lift read as small-sample and directional."]
         else []) ++
        (if a.niche_audience = "Yes" then
          ["Consider broader proxy audiences or alternative methods (qual, desk research, panel-based)."]
         else []) }
  else if a.objective = "Footfall / store visits" then
    if a.offline_data = "Yes" then
      { primary :=
          if a.ids = "Yes" then "Run an ID-based Footfall Uplift study (min ~30k media spend)."
          else "Run an SHG-based Footfall Uplift study (min ~100k media spend)."
        methods :=
          if a.ids = "Yes" then
            ["Footfall uplift (ID-based) – minimum ~30k.",
             "Footfall uplift via SHG (minimum ~100k) for omnichannel/no-ID media."]
          else ["Footfall uplift (SHG) – minimum ~100k."]
        details := ["Use Blis/partner location data to compare exposed vs control store visits."]
        risks := []
        alternatives := [] }
    else
      { primary := "Use location reach & proximity as a proxy for footfall (no visit data)."
        methods := ["Reach within store catchments & visit propensity reporting."]
        details := ["Without reliable store visit data, report on reach within store catchments and density of impressions around stores instead of strict uplift."]
        risks := []
        alternatives := ["Enable store visit data (via partners, beacons, Wi-Fi, or POS linkage) for future campaigns."] }
  else if a.objective = "Sales / conversions" then
    if a.offline_data = "Yes" then
      { primary := "Run a Sales Uplift study using merchant/product-level data."
        methods := ["Mastercard by merchant (minimum ~120k media spend).",
                    "Circana by product (minimum ~100k media spend)."]
        details := ["Use matched exposed vs control at merchant/product level with panel or transaction data."]
        risks := []
        alternatives := [] }
    else
      { primary := "Optimise towards performance KPIs (CPA/ROAS); full sales uplift not feasible without transaction data."
        methods := []
        details := ["Without sales data you can still optimise towards digital conversions but not run a formal sales uplift."]
        risks := []
        alternatives := ["Work with the client to enable sales data sharing or partner connections for uplift work."] }
  else if a.objective = "App installs / app usage" then
    if a.offline_data = "Yes" then
      { primary := "Run an App Uplift study for key telco/app partners (min ~120k media spend)."
        methods := ["O2/VMO2-style app uplift (minimum ~120k media spend)."]
        details := ["Use app analytics to compare exposed vs control app usage/installs, respecting partner minimums."]
        risks := []
        alternatives := [] }
    else
      { primary := "Use standard app analytics and attribution with directional uplift checks."
        methods := ["Standard app attribution with simple uplift checks by geo/audience."]
        details := ["Without dedicated app uplift partners, attribute installs to media and use trend differences as directional evidence."]
        risks := []
        alternatives := [] }
  else
    { primary := "Run an SHG/custom uplift approach where possible (min ~100k media spend)."
      methods := ["Other/custom uplift via SHG (minimum ~100k)."]
      details := ["For bespoke outcomes, use SHG/custom uplift as long as minimum volume is met; otherwise fall back to directional KPIs."]
      risks := []
      alternatives := [] }

/-- Risks appended by the cross-cutting pass of the earlier revision (src/app.py
lines 1170-1221), in append order; the market note fires only for the three
markets with known-variable coverage. -/
def cross_risks_early (a : AnswerRecord) : List String :=
  (if a.budget_level = "Low" then
    ["Budget/spend may be below the ~30k threshold – this can limit sample size and statistical power."]
   else []) ++
  (if a.budget_level = "Low" ∧ a.impressions_level = "Low" then
    ["Low spend AND low impressions – this is the \x27Bermuda Triangle\x27 where results often get lost."]
   else []) ++
  (if a.impressions_level = "Low" then
    ["Number and density of impressions may be too low for robust learning – reach per postcode will be light."]
   else []) ++
  (if a.duration ∈ ["< 1 week", "1–2 weeks"] then
    ["Duration is short – limited time to build reach and frequency, especially if there are bursts of activity."]
   else []) ++
  (if a.niche_audience = "Yes" then
    ["Niche audience (e.g., ultra high net worth, B2B decision makers) – budget vs reach trade-off is tough."]
   else []) ++
  (if a.other_media = "Yes" then
    ["Heavy other media in the same period/markets makes it harder to isolate this campaign\x27s impact."]
   else []) ++
  (if a.creative = "Weak / poor fit / static banners only" then
    ["Creative is weak or poorly aligned – even a perfect design may fail to show lift."]
   else []) ++
  (if a.market ∈ ["India", "Asia", "Other"] then
    ["Market data coverage and partner availability can vary – check in-market teams before promising specifics."]
   else [])

/-- Alternatives appended by the cross-cutting pass of the earlier revision. -/
def cross_alternatives_early (a : AnswerRecord) : List String :=
  (if a.budget_level = "Low" ∧ a.impressions_level = "Low" then
    ["Increase scale (budget/impressions) or avoid promising a formal uplift study; treat as exploratory."]
   else []) ++
  (if a.other_media = "Yes" then
    ["Stagger campaigns, define clean test vs control regions, or apply geo designs that consider other media."]
   else []) ++
  (if a.creative = "Weak / poor fit / static banners only" then
    ["Improve or test creative first, then rerun measurement on a stronger platform."]
   else [])

/-- Details appended by the cross-cutting pass of the earlier revision. -/
def cross_details_early (a : AnswerRecord) : List String :=
  if a.creative = "Weak / poor fit / static banners only" then []
  else if a.creative = "Average / not tested yet" then
    ["Creative has not been fully tested – treat results as a read on both media and creative effectiveness."]
  else []

/-- Earlier-revision `build_recommendation` (src/app.py lines 1032-1233):
core plus cross-cutting pass, with the non-empty vendor hint appended to
methods at the end. The `expectation` field is read into a local variable by
the source but never used. -/
def build_recommendation_early (a : AnswerRecord) : Recommendation :=
  let core := build_core_early a
  let vendor_hint := get_vendor_hint a.market a.objective
  { core with
    details := core.details ++ cross_details_early a
    risks := core.risks ++ cross_risks_early a
    alternatives := core.alternatives ++ cross_alternatives_early a
    methods := core.methods ++ (if vendor_hint ≠ "" then [vendor_hint] else []) }

/-- C4: in both revisions the objective branching of `build_recommendation`
ends in a catch-all else branch, so the returned primary recommendation is a
non-empty string for every answer record, including records whose objective
lies outside the five enumerated objective values. -/
theorem C4_primary_nonempty :
    ∀ a : AnswerRecord,
      0 < (build_recommendation a).primary.length ∧
      0 < (build_recommendation_early a).primary.length := by
  intro a
  constructor
  · show 0 < (build_core a).primary.length
    unfold build_core
    split_ifs <;> decide
  · show 0 < (build_core_early a).primary.length
    unfold build_core_early
    split_ifs <;> decide

/-- Record with a formal-study expectation and a low budget, all other fields
safe. -/
def formal_low_answers : AnswerRecord :=
  { safe_answers with
    expectation := "Formal, statistically robust lift study"
    budget_level := "Low" }

/-- C5 counterexample: on a concrete record with a formal-study expectation
and low budget, no risks entry of either revision even mentions the
word expect (so there is no expectation-mismatch risk entry), refuting the
claim that the risks list contains one. -/
theorem C5_counterexample_no_expectation_risk :
    formal_low_answers.expectation = "Formal, statistically robust lift study" ∧
    formal_low_answers.budget_level = "Low" ∧
    ((build_recommendation formal_low_answers).risks.all
      (fun r => ! strHasSub (strLower r) "expect")) = true ∧
    ((build_recommendation_early formal_low_answers).risks.all
      (fun r => ! strHasSub (strLower r) "expect")) = true :=
  ⟨rfl, rfl, by decide, by decide⟩

/-- C5 amended: `build_recommendation` never reads the expectation field in
either revision, so no expectation-mismatch risk entry exists; on a
formal-expectation/low-budget record the risks list instead carries the
objective-independent low-budget threshold entry, and the mismatch is
reflected only in the formal-expectation deduction of the scorers. -/
theorem C5_expectation_never_in_risks :
    ∀ (a : AnswerRecord) (e : String),
      build_recommendation { a with expectation := e } = build_recommendation a ∧
      build_recommendation_early { a with expectation := e } = build_recommendation_early a ∧
      (a.budget_level = "Low" →
        "Budget / spend threshold: below roughly 30k, most structured analyses struggle to achieve stable sample sizes."
          ∈ (build_recommendation a).risks ∧
        "Budget/spend may be below the ~30k threshold – this can limit sample size and statistical power."
          ∈ (build_recommendation_early a).risks) := by
  intro a e
  refine ⟨rfl, rfl, fun hb => ⟨?_, ?_⟩⟩
  · show _ ∈ (build_core a).risks ++ cross_risks a
    exact List.mem_append_right _ (by simp [cross_risks, hb])
  · show _ ∈ (build_core_early a).risks ++ cross_risks_early a
    exact List.mem_append_right _ (by simp [cross_risks_early, hb])

/-- C5 witness: the amended theorem applied to the concrete
formal-expectation/low-budget record. -/
theorem C5_expectation_never_in_risks_witness :
    build_recommendation { formal_low_answers with expectation := "Not sure yet" } =
      build_recommendation formal_low_answers ∧
    build_recommendation_early { formal_low_answers with expectation := "Not sure yet" } =
      build_recommendation_early formal_low_answers ∧
    ("Budget / spend threshold: below roughly 30k, most structured analyses struggle to achieve stable sample sizes."
        ∈ (build_recommendation formal_low_answers).risks ∧
      "Budget/spend may be below the ~30k threshold – this can limit sample size and statistical power."
        ∈ (build_recommendation_early formal_low_answers).risks) :=
  ⟨(C5_expectation_never_in_risks formal_low_answers "Not sure yet").1,
   (C5_expectation_never_in_risks formal_low_answers "Not sure yet").2.1,
   (C5_expectation_never_in_risks formal_low_answers "Not sure yet").2.2 rfl⟩

/-- C6: in the brand-awareness branch of both revisions, identifiers available
and not omnichannel selects the ID-based Brand Lift primary with the ID method
first and the SHG fallback second; otherwise (no identifiers, not-sure
identifiers, or omnichannel) the SHG-based primary is selected with the SHG
method and the ODR survey fallback among the methods. -/
theorem C6_brand_branch :
    ∀ a : AnswerRecord, a.objective = "Brand awareness / consideration" →
      ((a.ids = "Yes" ∧ a.omnichannel ≠ "Yes") →
        (build_recommendation a).primary = "Run an ID-based Brand Lift Study (minimum 30k media spend)." ∧
        (build_recommendation a).methods.take 2 =
          ["Brand Lift Study (ID-based, minimum 30k).",
           "If additional non-ID channels are important, consider SHG Brand Lift (minimum 100k)."] ∧
        (build_recommendation_early a).primary = "Run an ID-based Brand Lift Study (min ~30k media spend)." ∧
        (build_recommendation_early a).methods.take 2 =
          ["BLS ID (minimum ~30k media spend).",
           "Optionally, BLS SHG (minimum ~100k) for omnichannel coverage."]) ∧
      ((a.ids ≠ "Yes" ∨ a.omnichannel = "Yes") →
        (build_recommendation a).primary = "Run a Brand Lift via SHG / custom uplift (minimum 100k media spend)." ∧
        "Brand Lift via SHG (minimum 100k)." ∈ (build_recommendation a).methods ∧
        "If SHG is not possible, consider an ODR survey (minimum 40k)." ∈ (build_recommendation a).methods ∧
        (build_recommendation_early a).primary = "Run an SHG-based Brand Lift / custom uplift study (min ~100k media spend)." ∧
        "BLS SHG (minimum ~100k media spend)." ∈ (build_recommendation_early a).methods ∧
        "If SHG is not possible, use ODR-style survey (minimum ~40k)." ∈ (build_recommendation_early a).methods) := by
  intro a hobj
  constructor
  · rintro ⟨hids, homni⟩
    have hc : ¬(a.ids ≠ "Yes" ∨ a.omnichannel = "Yes") := by
      push_neg
      exact ⟨hids, homni⟩
    refine ⟨?_, ?_, ?_, ?_⟩ <;>
      simp [build_recommendation, build_core, build_recommendation_early, build_core_early,
        hobj, hc]
  · intro hc
    refine ⟨?_, ?_, ?_, ?_, ?_, ?_⟩ <;>
      simp [build_recommendation, build_core, build_recommendation_early, build_core_early,
        hobj, hc]

/-- C6 witness: the brand-branch theorem applied to the concrete safe record
(objective brand, ids Yes, omnichannel No). -/
theorem C6_brand_branch_witness :
    (build_recommendation safe_answers).primary = "Run an ID-based Brand Lift Study (minimum 30k media spend)." ∧
    (build_recommendation safe_answers).methods.take 2 =
      ["Brand Lift Study (ID-based, minimum 30k).",
       "If additional non-ID channels are important, consider SHG Brand Lift (minimum 100k)."] ∧
    (build_recommendation_early safe_answers).primary = "Run an ID-based Brand Lift Study (min ~30k media spend)." ∧
    (build_recommendation_early safe_answers).methods.take 2 =
      ["BLS ID (minimum ~30k media spend).",
       "Optionally, BLS SHG (minimum ~100k) for omnichannel coverage."] :=
  (C6_brand_branch safe_answers rfl).1 ⟨rfl, by decide⟩

/-- Scenario-2 record: the strong brand setup of scenario 1 but with low
budget and low impressions. -/
def scenario2_answers : AnswerRecord :=
  { safe_answers with budget_level := "Low", impressions_level := "Low" }

/-- C7: on the scenario-2 record the later-revision scorer returns exactly 1
(two deductions from the ceiling of 3), the status is the borderline warn
band, and the risks list contains the joint low-budget/low-impressions
Bermuda-Triangle entry. -/
theorem C7_scenario2 :
    compute_feasibility_score scenario2_answers = 1 ∧
    map_score_to_status (compute_feasibility_score scenario2_answers) =
      ("Borderline – treat as directional only", "warning") ∧
    "This sits in the \x27Bermuda Triangle\x27 – low budget and low number of impressions. Results are likely to get lost in noise."
      ∈ (build_recommendation scenario2_answers).risks :=
  ⟨by decide, by decide, by decide⟩

/-- App-installs record with no offline data and every other field safe. -/
def app_no_offline_answers : AnswerRecord :=
  { safe_answers with objective := "App installs / app usage", offline_data := "No" }

/-- C8 counterexample: in the later revision the offline-data deduction also
fires for the app-installs objective, so the concrete app-installs record with
offline_data No and all other fields safe scores 2, not the claimed ceiling
of 3. -/
theorem C8_counterexample_app_offline_deduction :
    compute_feasibility_score app_no_offline_answers = 2 ∧
    compute_feasibility_score app_no_offline_answers ≠ 3 :=
  ⟨by decide, by decide⟩

lemma early_deductions_offline (a : AnswerRecord) :
    early_deductions { a with offline_data := "No" } =
      early_deductions { a with offline_data := "Yes" } +
        (if a.objective ∈ ["Footfall / store visits", "Sales / conversions"] then 1 else 0) := by
  have hno : (a.objective ∈ ["Footfall / store visits", "Sales / conversions"] ∧ ("No" : String) = "No") ↔
      a.objective ∈ ["Footfall / store visits", "Sales / conversions"] := by simp
  have hyes : (a.objective ∈ ["Footfall / store visits", "Sales / conversions"] ∧ ("Yes" : String) = "No") ↔
      False := by simp
  simp only [early_deductions, indicator, hno, hyes, if_false, and_true]
  ring

lemma later_deductions_offline (a : AnswerRecord) :
    later_deductions { a with offline_data := "No" } =
      later_deductions { a with offline_data := "Yes" } +
        (if a.objective ∈ ["Footfall / store visits", "Sales / conversions", "App installs / app usage"] then 1 else 0) := by
  have hno : (a.objective ∈ ["Footfall / store visits", "Sales / conversions", "App installs / app usage"] ∧ ("No" : String) = "No") ↔
      a.objective ∈ ["Footfall / store visits", "Sales / conversions", "App installs / app usage"] := by simp
  have hyes : (a.objective ∈ ["Footfall / store visits", "Sales / conversions", "App installs / app usage"] ∧ ("Yes" : String) = "No") ↔
      False := by simp
  simp only [later_deductions, indicator, hno, hyes, if_false, and_true]
  ring

/-- C8 amended: the earlier-revision scorer deducts the offline-data point
exactly for the footfall and sales objectives, while the later-revision scorer
deducts it exactly for footfall, sales and app installs; hence the safe
app-installs record with no offline data keeps 3 in the earlier revision but
scores 2 in the later one. -/
theorem C8_offline_deduction_scope :
    ∀ a : AnswerRecord,
      compute_feasibility_score a = max (3 - later_deductions a) 0 ∧
      compute_feasibility_score_early { a with offline_data := "No" } =
        compute_feasibility_score_early { a with offline_data := "Yes" } -
          (if a.objective ∈ ["Footfall / store visits", "Sales / conversions"] then 1 else 0) ∧
      later_deductions { a with offline_data := "No" } =
        later_deductions { a with offline_data := "Yes" } +
          (if a.objective ∈ ["Footfall / store visits", "Sales / conversions", "App installs / app usage"] then 1 else 0) ∧
      compute_feasibility_score app_no_offline_answers = 2 ∧
      compute_feasibility_score_early app_no_offline_answers = 3 := by
  intro a
  refine ⟨later_score_eq a, ?_, later_deductions_offline a, by decide, by decide⟩
  rw [early_score_eq, early_score_eq]
  have h := early_deductions_offline a
  linarith [h]

lemma two_le_length_of_mem_ne {α : Type} {x y : α} {l : List α}
    (hx : x ∈ l) (hy : y ∈ l) (hxy : x ≠ y) : 2 ≤ l.length := by
  cases l with
  | nil => simp at hx
  | cons a t =>
    cases t with
    | nil =>
      simp at hx hy
      exact absurd (hx.trans hy.symm) hxy
    | cons b u =>
      simp only [List.length_cons]
      omega

/-- C9: the later-revision `build_recommendation` unconditionally appends the
market-feasibility note and the control/holdout note after all conditional
predicates, so for every answer record the risks list contains both notes and
has at least two entries — it is never empty. -/
theorem C9_risks_never_empty :
    ∀ a : AnswerRecord,
      "Market you are advertising in can affect feasibility (panel coverage, data availability, partner access). Check local constraints before committing to specific vendors."
        ∈ (build_recommendation a).risks ∧
      "Ensure there is a clear control or holdout group. Without a proper control, results become directional rather than definitive."
        ∈ (build_recommendation a).risks ∧
      2 ≤ (build_recommendation a).risks.length := by
  intro a
  have hm : "Market you are advertising in can affect feasibility (panel coverage, data availability, partner access). Check local constraints before committing to specific vendors."
      ∈ cross_risks a := by
    simp [cross_risks]
  have hc : "Ensure there is a clear control or holdout group. Without a proper control, results become directional rather than definitive."
      ∈ cross_risks a := by
    simp [cross_risks]
  have hm2 : "Market you are advertising in can affect feasibility (panel coverage, data availability, partner access). Check local constraints before committing to specific vendors."
      ∈ (build_recommendation a).risks := List.mem_append_right _ hm
  have hc2 : "Ensure there is a clear control or holdout group. Without a proper control, results become directional rather than definitive."
      ∈ (build_recommendation a).risks := List.mem_append_right _ hc
  exact ⟨hm2, hc2, two_le_length_of_mem_ne hm2 hc2 (by decide)⟩

/-- C10: `get_impression_level` maps the four questionnaire impression bands
as: the sub-100k band to Low, the 100k-500k band to Medium, and both the
500k-1M and 1M-plus bands to High. -/
theorem C10_impression_bands :
    get_impression_level "< 100k" = "Low" ∧
    get_impression_level "100k–500k" = "Medium" ∧
    get_impression_level "500k–1M" = "High" ∧
    get_impression_level "1M+" = "High" :=
  ⟨by decide, by decide, by decide, by decide⟩
